import Mathlib

/-!
Shallow embedding of the eBay scheduled-listing tool: the OAuth2 token
lifecycle (src/oauth2_auth.py), the Sell API client and its three-step
listing saga (src/sell_api_client.py), the schedule-time normalization and
authentication setup of the main application (src/main_sell_api.py), and the
configuration defaults (src/config.py). Python dictionaries are association
lists of `PyVal` values; functions that the source lets raise are modelled
with `Option`, `none` standing for a propagated exception. Network traffic
is made explicit: every embedded API operation returns the list of HTTP
requests it issued, and the remote side is a parameter mapping each request
to a response.
-/

/-- A Python runtime value as it appears in the dictionaries the source
manipulates (JSON-shaped). `null` is Python `None`. Numbers are carried as
integers: every number the modelled flows produce or consume is
integer-valued. -/
inductive PyVal where
  | null
  | bool (b : Bool)
  | num (n : Int)
  | str (s : String)
  | arr (xs : List PyVal)
  | obj (fields : List (String × PyVal))

/-- A Python dict: an association list, first binding wins on lookup
(all modelled dicts bind each key once, as Python dicts do). -/
abbrev PyDict := List (String × PyVal)

/-- Python truthiness (`bool(v)`) for the modelled values. -/
def PyVal.truthy : PyVal → Bool
  | .null => false
  | .bool b => b
  | .num n => !(n == 0)
  | .str s => !s.isEmpty
  | .arr xs => !xs.isEmpty
  | .obj fs => !fs.isEmpty

/-- Truthiness of a `dict.get` result: Python `None` (absent key) is falsy. -/
def truthyOpt : Option PyVal → Bool
  | none => false
  | some v => v.truthy

/-- Python `str(v)` as the source interpolates values into URLs and
messages. The container renderings are placeholders: the flows under study
only interpolate strings and numbers. -/
def pyStr : PyVal → String
  | .null => "None"
  | .bool b => if b then "True" else "False"
  | .num n => toString n
  | .str s => s
  | .arr _ => "[...]"
  | .obj _ => "[object]"

/-- The numeric view Python arithmetic takes of a value: `bool` counts as an
integer, everything else is not a number. -/
def PyVal.asNum? : PyVal → Option Int
  | .num n => some n
  | .bool b => some (if b then 1 else 0)
  | _ => none

/-- Python `a + b` on the modelled values: `none` is a `TypeError`.
Numbers (and bools) add, strings and lists concatenate, mixed or other
operands raise. -/
def pyAdd (a b : PyVal) : Option PyVal :=
  match a, b with
  | .str x, .str y => some (.str (x ++ y))
  | .arr x, .arr y => some (.arr (x ++ y))
  | _, _ =>
    match a.asNum?, b.asNum? with
    | some x, some y => some (.num (x + y))
    | _, _ => none

/-- Python `v - k` for an integer literal `k`: raises (`none`) unless `v` is
numeric. -/
def pySubInt (v : PyVal) (k : Int) : Option PyVal :=
  (v.asNum?).map (fun x => .num (x - k))

/-- Python `x < v` for an integer `x`: raises (`none`) unless `v` is
numeric. -/
def pyLtInt (x : Int) (v : PyVal) : Option Bool :=
  (v.asNum?).map (fun y => decide (x < y))

/-- Python `int(value)` with a default for an absent key, as the source uses
it on quantities. (An `int()` call on a non-numeric value would raise in the
source; the modelled call sites only receive numbers or absent keys.) -/
def pyIntD (v : Option PyVal) (d : Int) : Int :=
  match v with
  | none => d
  | some u => match u.asNum? with
    | some n => n
    | none => d

/-- The object fields of a value, `[]` when it is not an object: models the
source reading `listing_data.get(key, {})` results as dicts. -/
def asObj : Option PyVal → PyDict
  | some (.obj fs) => fs
  | _ => []

/-! ## OAuth2 token lifecycle — src/oauth2_auth.py -/

/-- `eBayOAuth2Auth.is_token_valid` (src/oauth2_auth.py lines 197-221),
with the current time passed explicitly in place of `time.time()`. The
result is `none` when the source would raise: the expiration arithmetic
`obtained_at + expires_in - 300` and the comparison against the current
time are Python dynamic operations that raise `TypeError` on truthy
non-numeric field values. -/
def is_token_valid (token_data : PyDict) (now : Int) : Option Bool :=
  if token_data.isEmpty then some false
  else if (token_data.lookup "access_token").isNone then some false
  else
    let expires_in := token_data.lookup "expires_in"
    let obtained_at := token_data.lookup "obtained_at"
    if !truthyOpt expires_in || !truthyOpt obtained_at then some false
    else
      match obtained_at, expires_in with
      | some ov, some ev =>
        match pyAdd ov ev with
        | none => none
        | some s =>
          match pySubInt s 300 with
          | none => none
          | some expiration_time => pyLtInt now expiration_time
      | _, _ => some false

/-- The environment one call of `get_valid_access_token` runs in: the stored
token record `load_tokens` returns, what interactive authentication would
yield, what the token endpoint would answer a refresh with (`none` = the
request fails or is rejected), and the current time. -/
structure AuthEnv where
  stored : Option PyDict
  interactive : Option PyDict
  refreshResponse : Option PyDict
  now : Int

/-- The observable actions of one `get_valid_access_token` run:
`interactiveAuth` is the interactive consent flow (token-exchange network
call included), `refreshAttempt` is entry into the expired-token branch,
`refreshCall` is the refresh network call to the token endpoint, and
`saveTokens` a write of the persisted record. -/
inductive AuthEvent where
  | interactiveAuth
  | refreshAttempt
  | refreshCall
  | saveTokens
deriving DecidableEq, BEq

/-- Result and event trace of one `get_valid_access_token` run. The result
is `none` when the source raises (propagated from `is_token_valid`);
otherwise it is the Python return value (`none` = Python `None`). -/
structure AuthOut where
  result : Option (Option PyVal)
  events : List AuthEvent

/-- `eBayOAuth2Auth.refresh_access_token` (src/oauth2_auth.py lines
135-175): one POST to the token endpoint; on success the new refresh token,
when present, is saved, and the response's `access_token` (possibly absent)
is returned; on a failed request the result is Python `None`. -/
def refresh_access_token (env : AuthEnv) : Option PyVal × List AuthEvent :=
  match env.refreshResponse with
  | none => (none, [.refreshCall])
  | some token_data =>
    ((token_data.lookup "access_token"),
      [.refreshCall] ++
        (if (token_data.lookup "refresh_token").isSome then [.saveTokens] else []))

/-- The `load_tokens` / `authenticate_interactive` prelude of
`get_valid_access_token` (src/oauth2_auth.py lines 230-241): when no stored
record exists (or it is falsy), interactive authentication is attempted and
its result saved when truthy. -/
def acquire_token_data (env : AuthEnv) : Option PyDict × List AuthEvent :=
  match env.stored with
  | some td =>
    if td.isEmpty then
      match env.interactive with
      | some td2 => if td2.isEmpty then (none, [.interactiveAuth])
                    else (some td2, [.interactiveAuth, .saveTokens])
      | none => (none, [.interactiveAuth])
    else (some td, [])
  | none =>
    match env.interactive with
    | some td2 => if td2.isEmpty then (none, [.interactiveAuth])
                  else (some td2, [.interactiveAuth, .saveTokens])
    | none => (none, [.interactiveAuth])

/-- `eBayOAuth2Auth.get_valid_access_token` (src/oauth2_auth.py lines
223-262). A valid record's `access_token` is returned as stored; an invalid
one sends the run into the refresh branch (`refreshAttempt`), which returns
`None` without any refresh network call when no truthy `refresh_token` is
present, and otherwise makes exactly one refresh call, returning its token
on success (persisting the updated record) and `None` on failure — never
retrying. -/
def get_valid_access_token (env : AuthEnv) : AuthOut :=
  let acq := acquire_token_data env
  let ev0 := acq.2
  match acq.1 with
  | none => ⟨some none, ev0⟩
  | some token_data =>
    match is_token_valid token_data env.now with
    | none => ⟨none, ev0⟩
    | some true => ⟨some (token_data.lookup "access_token"), ev0⟩
    | some false =>
      let ev1 := ev0 ++ [.refreshAttempt]
      match token_data.lookup "refresh_token" with
      | none => ⟨some none, ev1⟩
      | some rt =>
        if !rt.truthy then ⟨some none, ev1⟩
        else
          let refreshed := refresh_access_token env
          let new_access_token := refreshed.1
          match new_access_token with
          | some t =>
            if t.truthy then ⟨some (some t), ev1 ++ refreshed.2 ++ [.saveTokens]⟩
            else ⟨some none, ev1 ++ refreshed.2⟩
          | none => ⟨some none, ev1 ++ refreshed.2⟩

/-! ## Authenticated gateway and Sell API client — src/sell_api_client.py -/

/-- `eBaySellAPIClient.base_url` (src/sell_api_client.py line 20). -/
def base_url : String := "https://api.ebay.com/sell"

/-- One HTTP request as the gateway issues it. The bearer, marketplace and
`Content-Language` headers, attached uniformly by `_auth_headers` and
`_make_api_call`, carry no claim-relevant information and are not
modelled. -/
structure Request where
  method : String
  url : String
  body : Option PyVal

/-- One HTTP response as the gateway reads it: status code, raw body text,
and the body's JSON parse when it is a JSON object (`none` models a
`json.JSONDecodeError` from `response.json()`). -/
structure HttpResponse where
  status : Nat
  text : String
  parsed : Option PyDict

/-- The remote side: what response each request receives. Transport
exceptions (timeout, connection failure) are a separate source branch not
exercised by the claims and are not modelled. -/
abbrev Env := Request → HttpResponse

/-- The `(success, response_dict, error_message)` triple every client
operation returns. -/
structure ApiResult where
  success : Bool
  response : PyDict
  error : String

/-- A client operation's result together with the HTTP requests it issued,
in order. -/
structure CallOut where
  result : ApiResult
  requests : List Request

/-- The success statuses `_make_api_call` accepts:
`response.status_code in [200, 201, 204]` (src/sell_api_client.py
line 75). -/
def isSuccessStatus (s : Nat) : Bool := s == 200 || s == 201 || s == 204

/-- Response classification of `_make_api_call` (src/sell_api_client.py
lines 75-95): 200/201/204 succeed, a 204 or empty body yielding an empty
payload and an unparseable body the `\x7bmessage: Success\x7d` placeholder;
every other status fails with `HTTP <status>: <remote message or raw
body>`. -/
def classifyResponse (resp : HttpResponse) : ApiResult :=
  if isSuccessStatus resp.status then
    if resp.status == 204 || resp.text == "" then ⟨true, [], ""⟩
    else
      match resp.parsed with
      | some response_dict => ⟨true, response_dict, ""⟩
      | none => ⟨true, [("message", .str "Success")], ""⟩
  else
    match resp.parsed with
    | some error_data =>
      ⟨false, [], "HTTP " ++ toString resp.status ++ ": " ++
        pyStr ((error_data.lookup "message").getD (.str resp.text))⟩
    | none => ⟨false, [], "HTTP " ++ toString resp.status ++ ": " ++ resp.text⟩

/-- `eBaySellAPIClient._make_api_call` (src/sell_api_client.py lines
33-104): dispatch on the HTTP method (GET and DELETE carry no body), issue
the request, classify the response. An unsupported method fails without a
network call. -/
def make_api_call (env : Env) (method url : String) (data : Option PyVal) : CallOut :=
  if method == "GET" || method == "POST" || method == "PUT" || method == "DELETE" then
    let req : Request :=
      ⟨method, url, if method == "GET" || method == "DELETE" then none else data⟩
    ⟨classifyResponse (env req), [req]⟩
  else ⟨⟨false, [], "Unsupported HTTP method: " ++ method⟩, []⟩

/-- `eBaySellAPIClient.create_inventory_item` (src/sell_api_client.py lines
106-137): PUT of the product payload to the sku-keyed inventory-item
endpoint. -/
def create_inventory_item (env : Env) (sku : String) (product_data : PyDict)
    (quantity : Int) : CallOut :=
  let url := base_url ++ "/inventory/v1/inventory_item/" ++ sku
  let body : PyVal := .obj [
    ("product", .obj [
      ("title", (product_data.lookup "title").getD (.str "")),
      ("description", (product_data.lookup "description").getD (.str "")),
      ("aspects", (product_data.lookup "aspects").getD (.obj [])),
      ("imageUrls", (product_data.lookup "imageUrls").getD (.arr []))]),
    ("condition", (product_data.lookup "condition").getD (.str "NEW")),
    ("availability", .obj [
      ("shipToLocationAvailability", .obj [("quantity", .num quantity)])])]
  make_api_call env "PUT" url (some body)

/-- The five mandatory offer fields in the order `create_offer` collects
them (src/sell_api_client.py lines 152-158). -/
def required_offer_fields (offer_data : PyDict) : List (String × Option PyVal) :=
  [("categoryId", offer_data.lookup "categoryId"),
   ("merchantLocationKey", offer_data.lookup "merchantLocationKey"),
   ("paymentPolicyId", offer_data.lookup "paymentPolicyId"),
   ("fulfillmentPolicyId", offer_data.lookup "fulfillmentPolicyId"),
   ("returnPolicyId", offer_data.lookup "returnPolicyId")]

/-- `missing = [field for field, value in required_fields.items() if not
value]` (src/sell_api_client.py line 160): the mandatory fields whose value
is absent or falsy, in collection order. -/
def missing_offer_fields (offer_data : PyDict) : List String :=
  (required_offer_fields offer_data).filterMap
    (fun p => if truthyOpt p.2 then none else some p.1)

/-- The wire rendering of the offer price (src/sell_api_client.py line 184):
numbers are formatted with two decimals, other values stringified. The
model's numbers are integers, so the fraction digits are always zero. -/
def price_wire_value : PyVal → String
  | .num n => toString n ++ ".00"
  | v => pyStr v

/-- `eBaySellAPIClient.create_offer` (src/sell_api_client.py lines
139-218): fail fast (no request) when a mandatory field is missing or the
price is absent; otherwise POST the offer body. The success-path logging of
an echoed `listingStartDate` (lines 213-218) has no effect on the result. -/
def create_offer (env : Env) (marketplace_id sku : String) (offer_data : PyDict) :
    CallOut :=
  let missing := missing_offer_fields offer_data
  if !missing.isEmpty then
    ⟨⟨false, [], "Missing required offer fields: " ++
      String.intercalate ", " missing⟩, []⟩
  else
    match offer_data.lookup "price" with
    | none => ⟨⟨false, [], "Missing required offer field: price"⟩, []⟩
    | some .null => ⟨⟨false, [], "Missing required offer field: price"⟩, []⟩
    | some price_value =>
      let body : PyVal := .obj ([
        ("sku", .str sku),
        ("marketplaceId", .str marketplace_id),
        ("format", (offer_data.lookup "format").getD (.str "FIXED_PRICE")),
        ("availableQuantity", .num (pyIntD (offer_data.lookup "availableQuantity") 1)),
        ("categoryId", (offer_data.lookup "categoryId").getD .null),
        ("merchantLocationKey", (offer_data.lookup "merchantLocationKey").getD .null),
        ("listingDescription", (offer_data.lookup "listingDescription").getD (.str "")),
        ("includeCatalogProductDetails", .bool false),
        ("itemAspects", (offer_data.lookup "itemAspects").getD (.obj [])),
        ("pricingSummary", .obj [
          ("price", .obj [
            ("value", .str (price_wire_value price_value)),
            ("currency", (offer_data.lookup "currency").getD (.str "USD"))])]),
        ("listingPolicies", .obj [
          ("fulfillmentPolicyId", (offer_data.lookup "fulfillmentPolicyId").getD .null),
          ("paymentPolicyId", (offer_data.lookup "paymentPolicyId").getD .null),
          ("returnPolicyId", (offer_data.lookup "returnPolicyId").getD .null)])] ++
        (if truthyOpt (offer_data.lookup "quantityLimitPerBuyer") then
          [("quantityLimitPerBuyer",
            .num (pyIntD (offer_data.lookup "quantityLimitPerBuyer") 0))] else []) ++
        (if truthyOpt (offer_data.lookup "bestOfferTerms") then
          [("bestOfferTerms", (offer_data.lookup "bestOfferTerms").getD .null)] else []) ++
        (if truthyOpt (offer_data.lookup "storeCategoryNames") then
          [("storeCategoryNames", (offer_data.lookup "storeCategoryNames").getD .null)]
         else []) ++
        (if truthyOpt (offer_data.lookup "listingStartDate") then
          [("listingStartDate", (offer_data.lookup "listingStartDate").getD .null)]
         else []) ++
        (if truthyOpt (offer_data.lookup "listingDuration") then
          [("listingDuration", (offer_data.lookup "listingDuration").getD .null)]
         else []))
      make_api_call env "POST" (base_url ++ "/inventory/v1/offer") (some body)

/-- `eBaySellAPIClient.publish_offer` (src/sell_api_client.py lines
220-233): a bare POST to the offer's publish endpoint. The `start_date`
parameter is accepted but never placed in the request. -/
def publish_offer (env : Env) (offer_id : String) (start_date : Option PyVal) :
    CallOut :=
  let _ := start_date
  make_api_call env "POST"
    (base_url ++ "/inventory/v1/offer/" ++ offer_id ++ "/publish") none

/-! ## Listing-creation saga — `create_scheduled_listing`
(src/sell_api_client.py lines 275-326) -/

/-- One step of the orchestration, recorded when the step's client
operation is invoked. -/
inductive Step where
  | upsert
  | offer
  | publish
deriving DecidableEq, BEq

/-- Result, invoked steps and issued requests of one orchestration run. -/
structure SagaOut where
  result : ApiResult
  steps : List Step
  requests : List Request

/-- The sku the saga uses: `listing_data.get("sku",
f"LISTING_{int(datetime.now().timestamp())}")` (src/sell_api_client.py
line 286), with the timestamp passed explicitly. -/
def saga_sku (now : Int) (listing_data : PyDict) : String :=
  match listing_data.lookup "sku" with
  | some v => pyStr v
  | none => "LISTING_" ++ toString now

/-- Step 1 of the saga as invoked (src/sell_api_client.py lines 289-293). -/
def saga_inv_call (env : Env) (now : Int) (listing_data : PyDict) : CallOut :=
  create_inventory_item env (saga_sku now listing_data)
    (asObj (listing_data.lookup "product"))
    (pyIntD (listing_data.lookup "quantity") 1)

/-- Step 2 of the saga as invoked (src/sell_api_client.py line 299). -/
def saga_offer_call (env : Env) (marketplace_id : String) (now : Int)
    (listing_data : PyDict) : CallOut :=
  create_offer env marketplace_id (saga_sku now listing_data)
    (asObj (listing_data.lookup "offer"))

/-- The `offerId` the saga extracts from the offer response
(src/sell_api_client.py line 304). -/
def saga_offer_id (env : Env) (marketplace_id : String) (now : Int)
    (listing_data : PyDict) : Option PyVal :=
  (saga_offer_call env marketplace_id now listing_data).result.response.lookup "offerId"

/-- The publish start date the saga computes (src/sell_api_client.py lines
308-310): the offer's truthy `listingStartDate` when present, else
`listing_data.get("publishStartDate")`. -/
def saga_publish_start (listing_data : PyDict) : Option PyVal :=
  match (asObj (listing_data.lookup "offer")).lookup "listingStartDate" with
  | some start_date =>
    if start_date.truthy then some start_date
    else listing_data.lookup "publishStartDate"
  | none => listing_data.lookup "publishStartDate"

/-- Step 3 of the saga as invoked (src/sell_api_client.py line 312). -/
def saga_publish_call (env : Env) (marketplace_id : String) (now : Int)
    (listing_data : PyDict) : CallOut :=
  publish_offer env
    (pyStr ((saga_offer_id env marketplace_id now listing_data).getD .null))
    (saga_publish_start listing_data)

/-- `eBaySellAPIClient.create_scheduled_listing` (src/sell_api_client.py
lines 275-326): inventory upsert, then offer creation, then publish, each
gated on the previous step's success, with an absent or falsy `offerId`
treated as a failure; a failing step makes the run return a failure result
with an empty payload and the step's error message behind a step-name
prefix. -/
def create_scheduled_listing (env : Env) (marketplace_id : String) (now : Int)
    (listing_data : PyDict) : SagaOut :=
  let c1 := saga_inv_call env now listing_data
  if !c1.result.success then
    ⟨⟨false, [], "Failed to create inventory item: " ++ c1.result.error⟩,
      [.upsert], c1.requests⟩
  else
    let c2 := saga_offer_call env marketplace_id now listing_data
    if !c2.result.success then
      ⟨⟨false, [], "Failed to create offer: " ++ c2.result.error⟩,
        [.upsert, .offer], c1.requests ++ c2.requests⟩
    else if !truthyOpt (saga_offer_id env marketplace_id now listing_data) then
      ⟨⟨false, [], "Offer created but offerId missing in response"⟩,
        [.upsert, .offer], c1.requests ++ c2.requests⟩
    else
      let c3 := saga_publish_call env marketplace_id now listing_data
      if !c3.result.success then
        ⟨⟨false, [], "Failed to publish offer: " ++ c3.result.error⟩,
          [.upsert, .offer, .publish], c1.requests ++ c2.requests ++ c3.requests⟩
      else
        ⟨⟨true, [
          ("sku", .str (saga_sku now listing_data)),
          ("inventoryResponse", .obj c1.result.response),
          ("offerResponse", .obj c2.result.response),
          ("publishResponse", .obj c3.result.response)], ""⟩,
          [.upsert, .offer, .publish], c1.requests ++ c2.requests ++ c3.requests⟩

/-! ## Main application — src/main_sell_api.py and src/config.py -/

/-- The configuration default for the redirect URI: `DEFAULTS["REDIRECT_URI"]
= "YOUR_RUNAME"` (src/config.py line 17), the documented placeholder for a
not-yet-configured callback. -/
def DEFAULTS_REDIRECT_URI : String := "YOUR_RUNAME"

/-- The redirect-URI guard of `setup_authentication` (src/main_sell_api.py
lines 59-63): `true` when the guard is passed and the setup proceeds to
token acquisition (network); `false` when the setup fails at the guard
before any network call. The effective URI is the truthy parameter, else
the configured one (`getattr` with a `None` default). -/
def setup_auth_passes_guard (redirect_uri config_redirect_uri : Option String) :
    Bool :=
  let effective : Option String :=
    match redirect_uri with
    | some s => if s.isEmpty then config_redirect_uri else some s
    | none => config_redirect_uri
  match effective with
  | none => false
  | some s => !s.isEmpty && !(s == "YOUR_PRODUCTION_RUNAME")

/-- The schedule-time normalization of `create_sample_laptop_listing`
(src/main_sell_api.py lines 194-200): for a truthy positive lead time in
hours, `now + hours`, clamped up to `now + 30 minutes`; otherwise no
scheduled time (immediate publish). Times are rational seconds since the
epoch; the `strftime` rendering to ISO text is a separate formatting step. -/
def normalize_schedule_time (now : ℚ) (schedule_hours : Option ℚ) : Option ℚ :=
  match schedule_hours with
  | none => none
  | some h =>
    if h ≠ 0 ∧ 0 < h then
      if now + h * 3600 < now + 30 * 60 then some (now + 30 * 60)
      else some (now + h * 3600)
    else none

/-- The sample offer payload of `create_sample_laptop_listing`
(src/main_sell_api.py lines 247-261) up to the schedule field, with the
configured identifiers and the listing description as parameters. The
source's float price `1299.00` is carried as the integer `1299`. -/
def sample_offer_base (categoryId merchantLocationKey listingDescription
    paymentPolicyId fulfillmentPolicyId returnPolicyId : String) : PyDict :=
  [("categoryId", .str categoryId),
   ("merchantLocationKey", .str merchantLocationKey),
   ("listingDescription", .str listingDescription),
   ("listingDuration", .str "GTC"),
   ("price", .num 1299),
   ("currency", .str "USD"),
   ("availableQuantity", .num 1),
   ("contentLanguage", .str "en-US"),
   ("itemAspects", .obj [
     ("Brand", .arr [.str "Apple"]),
     ("Model", .arr [.str "MacBook Pro"])]),
   ("paymentPolicyId", .str paymentPolicyId),
   ("fulfillmentPolicyId", .str fulfillmentPolicyId),
   ("returnPolicyId", .str returnPolicyId)]

/-- Lines 262-263 of src/main_sell_api.py: the offer payload receives a
`listingStartDate` entry exactly when a schedule time was produced. -/
def sample_offer_data (categoryId merchantLocationKey listingDescription
    paymentPolicyId fulfillmentPolicyId returnPolicyId : String)
    (schedule_time : Option String) : PyDict :=
  sample_offer_base categoryId merchantLocationKey listingDescription
    paymentPolicyId fulfillmentPolicyId returnPolicyId ++
  (match schedule_time with
   | some t => [("listingStartDate", .str t)]
   | none => [])

/-! ## Theorems checking the specification's claims -/

/-- A remote that answers every request with an empty-body 200: every
gateway call succeeds with an empty payload. -/
def constEnv : Env := fun _ => ⟨200, "", none⟩

/-- Whether `pat` matches the start of `s` (character lists). -/
def matchesAt : List Char → List Char → Bool
  | [], _ => true
  | _ :: _, [] => false
  | p :: ps, c :: cs => p == c && matchesAt ps cs

/-- Whether `pat` occurs inside `s` (character lists). -/
def containsSub : List Char → List Char → Bool
  | [], pat => pat.isEmpty
  | c :: rest, pat => matchesAt pat (c :: rest) || containsSub rest pat

/-- Whether `pat` occurs as a substring of `s`. -/
def strContains (s pat : String) : Bool := containsSub s.data pat.data

/-- C8: the redirect-URI guard of `setup_authentication` is meant to stop a
configuration whose redirect URI is unset or still the documented
placeholder, but it compares against the string `YOUR_PRODUCTION_RUNAME`
while the shipped configuration default is `YOUR_RUNAME`: with the default
configuration the guard is passed and the setup proceeds toward token
acquisition (network), failing the guard only for an empty URI or the
other, unused placeholder. -/
theorem redirect_placeholder_guard_gap :
  DEFAULTS_REDIRECT_URI = "YOUR_RUNAME" ∧
  setup_auth_passes_guard none (some DEFAULTS_REDIRECT_URI) = true ∧
  setup_auth_passes_guard none (some "YOUR_PRODUCTION_RUNAME") = false ∧
  setup_auth_passes_guard none none = false :=
  ⟨rfl, rfl, rfl, rfl⟩

/-- C6 (amended): the gateway call treats exactly the statuses 200, 201 and
204 as success — among them a 204 or an empty body yields an empty payload
— and every other status, the remaining 2xx codes included, yields a
failure whose message combines the HTTP status with the remote payload's
`message` field when the body parses as JSON, else the raw body text. -/
theorem gateway_status_classification (resp : HttpResponse) :
  (isSuccessStatus resp.status = true → (classifyResponse resp).success = true) ∧
  (isSuccessStatus resp.status = true → (resp.status = 204 ∨ resp.text = "") →
    classifyResponse resp = ⟨true, [], ""⟩) ∧
  (isSuccessStatus resp.status = false →
    classifyResponse resp = ⟨false, [],
      "HTTP " ++ toString resp.status ++ ": " ++
        (match resp.parsed with
         | some d => pyStr ((d.lookup "message").getD (.str resp.text))
         | none => resp.text)⟩) := by
  refine ⟨fun h => ?_, fun h h2 => ?_, fun h => ?_⟩
  · simp only [classifyResponse, h, eq_self_iff_true, if_true]
    split
    · rfl
    · split <;> rfl
  · rcases h2 with h204 | htxt
    · simp [classifyResponse, isSuccessStatus, h204]
    · simp [classifyResponse, h, htxt]
  · cases hp : resp.parsed <;> simp [classifyResponse, h, hp]

/-- C6, counterexample to the claim as stated: 202 is a 2xx status, yet the
gateway classifies a 202 response as a failure. -/
theorem gateway_202_failure_cex :
  (200 ≤ 202 ∧ 202 < 300) ∧
  classifyResponse ⟨202, "Accepted", none⟩ = ⟨false, [], "HTTP 202: Accepted"⟩ :=
  ⟨by decide, rfl⟩

/-- C7 (amended): `publish_offer` issues exactly one request, a POST to the
offer's publish endpoint with no request body — the supplied start date is
never transmitted, and the call's outcome is the gateway classification of
that bare POST (whose success payload is the remote's publish response,
carrying the live listing identifier). -/
theorem publish_offer_request_shape (env : Env) (offer_id : String)
    (start_date : Option PyVal) :
  publish_offer env offer_id start_date =
    ⟨classifyResponse (env ⟨"POST",
        base_url ++ "/inventory/v1/offer/" ++ offer_id ++ "/publish", none⟩),
      [⟨"POST", base_url ++ "/inventory/v1/offer/" ++ offer_id ++ "/publish", none⟩]⟩ ∧
  publish_offer env offer_id start_date = publish_offer env offer_id none :=
  ⟨rfl, rfl⟩

/-- C7, counterexample to the claim as stated: a publish with a supplied
start date issues a request whose body is empty — no `listingStartDate` is
carried — identical to the publish issued with no start date at all. -/
theorem publish_drops_start_date_cex :
  (publish_offer constEnv "OFFER123" (some (.str "2026-01-01T00:00:00.000Z"))).requests =
    [⟨"POST", "https://api.ebay.com/sell/inventory/v1/offer/OFFER123/publish", none⟩] ∧
  publish_offer constEnv "OFFER123" (some (.str "2026-01-01T00:00:00.000Z")) =
    publish_offer constEnv "OFFER123" none :=
  ⟨rfl, rfl⟩

/-- C3: a positive lead time of `h` hours yields the start time
`now + h` hours clamped up to `now + 30` minutes (the maximum of the two),
a zero or unset lead time yields no scheduled time, and the sample offer
payload carries a `listingStartDate` field exactly when a scheduled time
was produced, holding that normalized time. -/
theorem schedule_clamp_and_field (now h : ℚ) (hrs : Option ℚ) (fmt : ℚ → String)
    (c m d p f r : String) :
  (normalize_schedule_time now (some h) =
    (if 0 < h then some (max (now + 30 * 60) (now + h * 3600)) else none)) ∧
  normalize_schedule_time now none = none ∧
  ((sample_offer_data c m d p f r
      ((normalize_schedule_time now hrs).map fmt)).lookup "listingStartDate" =
    (normalize_schedule_time now hrs).map (fun t => PyVal.str (fmt t))) := by
  refine ⟨?_, rfl, ?_⟩
  · by_cases h0 : 0 < h
    · have hcond : h ≠ 0 ∧ 0 < h := ⟨ne_of_gt h0, h0⟩
      simp only [normalize_schedule_time]
      rw [if_pos hcond, if_pos h0]
      by_cases hlt : now + h * 3600 < now + 30 * 60
      · rw [if_pos hlt, max_eq_left (le_of_lt hlt)]
      · rw [if_neg hlt, max_eq_right (not_lt.mp hlt)]
    · have hcond : ¬(h ≠ 0 ∧ 0 < h) := fun hc => h0 hc.2
      simp only [normalize_schedule_time]
      rw [if_neg hcond, if_neg h0]
  · cases hn : normalize_schedule_time now hrs
    · rfl
    · rfl

/-- C4 (amended): offer validation runs before any network traffic. When
any of the five mandatory policy/location fields is missing, `create_offer`
issues no request and its message lists exactly the missing mandatory
fields in collection order (a simultaneously missing price is not named:
the price check runs only once all five are present); when the five are
present but the price is absent, it issues no request and names `price`. -/
theorem offer_validation_fail_fast (env : Env) (mkt sku : String) (od : PyDict) :
  (missing_offer_fields od ≠ [] →
    create_offer env mkt sku od =
      ⟨⟨false, [], "Missing required offer fields: " ++
        String.intercalate ", " (missing_offer_fields od)⟩, []⟩) ∧
  (missing_offer_fields od = [] →
    (od.lookup "price" = none ∨ od.lookup "price" = some .null) →
    create_offer env mkt sku od =
      ⟨⟨false, [], "Missing required offer field: price"⟩, []⟩) := by
  constructor
  · intro hne
    have hemp : (missing_offer_fields od).isEmpty = false := by
      cases hmf : missing_offer_fields od
      · exact absurd hmf hne
      · rfl
    simp [create_offer, hemp]
  · intro hmf hp
    rcases hp with hp | hp <;> simp [create_offer, hmf, hp]

/-- C4, witness: an offer missing exactly `paymentPolicyId` and
`returnPolicyId` (the other three fields and the price present) fails with
a message naming exactly those two fields, with no request issued. -/
theorem offer_validation_fail_fast_witness :
  create_offer constEnv "EBAY_US" "SKU123"
      [("categoryId", .str "111422"), ("merchantLocationKey", .str "primary_warehouse"),
       ("fulfillmentPolicyId", .str "F1"), ("price", .num 1299)] =
    ⟨⟨false, [], "Missing required offer fields: paymentPolicyId, returnPolicyId"⟩,
      []⟩ :=
  (offer_validation_fail_fast constEnv "EBAY_US" "SKU123"
    [("categoryId", .str "111422"), ("merchantLocationKey", .str "primary_warehouse"),
     ("fulfillmentPolicyId", .str "F1"), ("price", .num 1299)]).1 (by decide)

/-- C4, counterexample to the claim as stated: on an offer missing both
`paymentPolicyId` and `price`, the error message names only
`paymentPolicyId` — the missing field `price` is not listed, because the
price check never runs when a policy field is missing. No request is
issued either way. -/
theorem offer_validation_price_unlisted_cex :
  (create_offer constEnv "EBAY_US" "SKU123"
      [("categoryId", .str "111422"), ("merchantLocationKey", .str "primary_warehouse"),
       ("fulfillmentPolicyId", .str "F1"), ("returnPolicyId", .str "R1")]).requests
    = [] ∧
  (create_offer constEnv "EBAY_US" "SKU123"
      [("categoryId", .str "111422"), ("merchantLocationKey", .str "primary_warehouse"),
       ("fulfillmentPolicyId", .str "F1"), ("returnPolicyId", .str "R1")]).result.error
    = "Missing required offer fields: paymentPolicyId" ∧
  List.lookup "price"
      [("categoryId", PyVal.str "111422"),
       ("merchantLocationKey", PyVal.str "primary_warehouse"),
       ("fulfillmentPolicyId", PyVal.str "F1"), ("returnPolicyId", PyVal.str "R1")]
    = none ∧
  strContains "Missing required offer fields: paymentPolicyId" "price" = false :=
  ⟨rfl, rfl, rfl, by decide⟩

/-- C1 (amended): when the inventory upsert succeeds and offer creation
then fails, the orchestration returns a failure whose error message is the
offer step's error behind the step-name prefix and whose payload is empty —
in particular the already-obtained sku is *not* included in the result (and
no offerId is). -/
theorem saga_failure_payload_empty (env : Env) (mkt : String) (now : Int)
    (ld : PyDict)
    (h1 : (saga_inv_call env now ld).result.success = true)
    (h2 : (saga_offer_call env mkt now ld).result.success = false) :
  (create_scheduled_listing env mkt now ld).result =
    ⟨false, [], "Failed to create offer: " ++
      (saga_offer_call env mkt now ld).result.error⟩ ∧
  (create_scheduled_listing env mkt now ld).result.response.lookup "sku" = none ∧
  (create_scheduled_listing env mkt now ld).result.response.lookup "offerId" = none := by
  have hr : (create_scheduled_listing env mkt now ld).result =
      ⟨false, [], "Failed to create offer: " ++
        (saga_offer_call env mkt now ld).result.error⟩ := by
    simp [create_scheduled_listing, h1, h2]
  exact ⟨hr, by rw [hr]; rfl, by rw [hr]; rfl⟩

/-- C1, witness: against a remote that accepts every request, a listing
whose offer payload is empty has a successful upsert followed by a failed
offer step, and the orchestration's failure result has an empty payload
(no sku, no offerId) with the offer step's error message. -/
theorem saga_failure_payload_empty_witness :
  (create_scheduled_listing constEnv "EBAY_US" 0 [("sku", .str "SKU1")]).result =
    ⟨false, [], "Failed to create offer: " ++
      (saga_offer_call constEnv "EBAY_US" 0 [("sku", .str "SKU1")]).result.error⟩ ∧
  (create_scheduled_listing constEnv "EBAY_US" 0
      [("sku", .str "SKU1")]).result.response.lookup "sku" = none ∧
  (create_scheduled_listing constEnv "EBAY_US" 0
      [("sku", .str "SKU1")]).result.response.lookup "offerId" = none :=
  saga_failure_payload_empty constEnv "EBAY_US" 0 [("sku", .str "SKU1")] rfl rfl

/-- C1, counterexample to the claim as stated: a run in which the inventory
upsert succeeded and offer creation then failed returns a failure result
whose payload is the empty dictionary — it does not contain the sku the
claim says it is augmented with (the error message does report the
offer-step failure). -/
theorem saga_failure_omits_sku_cex :
  (saga_inv_call constEnv 0 [("sku", .str "SKU1")]).result.success = true ∧
  (create_scheduled_listing constEnv "EBAY_US" 0
      [("sku", .str "SKU1")]).result.success = false ∧
  (create_scheduled_listing constEnv "EBAY_US" 0
      [("sku", .str "SKU1")]).result.response = [] ∧
  (create_scheduled_listing constEnv "EBAY_US" 0
      [("sku", .str "SKU1")]).result.error =
    "Failed to create offer: Missing required offer fields: categoryId, " ++
      "merchantLocationKey, paymentPolicyId, fulfillmentPolicyId, returnPolicyId" :=
  ⟨rfl, rfl, rfl, rfl⟩

/-- C5: an orchestration run's step trace is always a prefix of
upsert, offer, publish in that order; the offer step runs exactly when the
upsert succeeded; the publish step runs exactly when the upsert and the
offer succeeded and a truthy `offerId` was extracted from the offer
response (an absent offerId blocks publish); and the requests issued are
exactly those of the steps that ran, in step order — no other (compensating)
request is ever issued, and nothing follows a failed step. -/
theorem saga_step_ordering (env : Env) (mkt : String) (now : Int) (ld : PyDict) :
  ((create_scheduled_listing env mkt now ld).steps = [.upsert] ∨
   (create_scheduled_listing env mkt now ld).steps = [.upsert, .offer] ∨
   (create_scheduled_listing env mkt now ld).steps = [.upsert, .offer, .publish]) ∧
  ((Step.offer ∈ (create_scheduled_listing env mkt now ld).steps) ↔
    (saga_inv_call env now ld).result.success = true) ∧
  ((Step.publish ∈ (create_scheduled_listing env mkt now ld).steps) ↔
    ((saga_inv_call env now ld).result.success = true ∧
     (saga_offer_call env mkt now ld).result.success = true ∧
     truthyOpt (saga_offer_id env mkt now ld) = true)) ∧
  ((create_scheduled_listing env mkt now ld).requests =
    (saga_inv_call env now ld).requests ++
    (if (saga_inv_call env now ld).result.success then
      (saga_offer_call env mkt now ld).requests ++
      (if (saga_offer_call env mkt now ld).result.success &&
          truthyOpt (saga_offer_id env mkt now ld) then
        (saga_publish_call env mkt now ld).requests
      else [])
    else [])) := by
  cases h1 : (saga_inv_call env now ld).result.success
  · simp [create_scheduled_listing, h1]
  · cases h2 : (saga_offer_call env mkt now ld).result.success
    · simp [create_scheduled_listing, h1, h2]
    · cases h3 : truthyOpt (saga_offer_id env mkt now ld)
      · simp [create_scheduled_listing, h1, h2, h3]
      · cases h4 : (saga_publish_call env mkt now ld).result.success <;>
          simp [create_scheduled_listing, h1, h2, h3, h4]

/-- On a non-empty record whose `access_token` key is present and whose
`expires_in` and `obtained_at` are non-zero integers, `is_token_valid` is
the comparison of the current time against
`obtained_at + expires_in - 300`. -/
theorem is_token_valid_num (td : PyDict) (e o now : Int)
    (hne : td.isEmpty = false)
    (hacc : (td.lookup "access_token").isSome = true)
    (he : td.lookup "expires_in" = some (.num e))
    (ho : td.lookup "obtained_at" = some (.num o))
    (he0 : e ≠ 0) (ho0 : o ≠ 0) :
    is_token_valid td now = some (decide (now < o + e - 300)) := by
  have hin : (td.lookup "access_token").isNone = false := by
    cases hl : td.lookup "access_token"
    · rw [hl] at hacc; exact absurd hacc (by simp)
    · rfl
  simp [is_token_valid, hne, hin, he, ho, truthyOpt, PyVal.truthy, he0, ho0,
    pyAdd, PyVal.asNum?, pySubInt, pyLtInt]

/-- C2 (amended): for a stored record with the `access_token` key present
and non-zero integer `expires_in` and `obtained_at`: while the current time
is strictly below `obtained_at + expires_in - 300`, `get_valid_access_token`
returns the cached access token as stored with an empty event trace (no
network call of any kind); once the current time reaches that threshold,
the run enters the refresh branch. -/
theorem token_validity_window (env : AuthEnv) (td : PyDict) (e o : Int)
    (hst : env.stored = some td)
    (hne : td.isEmpty = false)
    (hacc : (td.lookup "access_token").isSome = true)
    (he : td.lookup "expires_in" = some (.num e))
    (ho : td.lookup "obtained_at" = some (.num o))
    (he0 : e ≠ 0) (ho0 : o ≠ 0) :
  (env.now < o + e - 300 →
    get_valid_access_token env = ⟨some (td.lookup "access_token"), []⟩) ∧
  (o + e - 300 ≤ env.now →
    AuthEvent.refreshAttempt ∈ (get_valid_access_token env).events) := by
  have hv := is_token_valid_num td e o env.now hne hacc he ho he0 ho0
  have hacq : acquire_token_data env = (some td, []) := by
    simp [acquire_token_data, hst, hne]
  constructor
  · intro hlt
    have hvt : is_token_valid td env.now = some true := by
      rw [hv]
      simp [hlt]
    simp [get_valid_access_token, hacq, hvt]
  · intro hge
    have hvf : is_token_valid td env.now = some false := by
      rw [hv]
      simp [not_lt.mpr hge]
    simp only [get_valid_access_token, hacq, hvf]
    cases hrt : td.lookup "refresh_token"
    · simp
    · next rt =>
      cases hrtt : rt.truthy
      · simp [hrtt]
      · simp only [hrtt, Bool.not_true, Bool.false_eq_true, if_false]
        rcases hrc : refresh_access_token env with ⟨tok, ev2⟩
        cases tok
        · simp
        · next t =>
          cases htt : t.truthy <;> simp [htt]

/-- C2, witness: a record obtained at time 50 with a 1000-second lifetime
is still valid at time 100 (100 < 50 + 1000 - 300), and the call returns
the stored token with no event at all. -/
theorem token_validity_window_witness :
  get_valid_access_token
      ⟨some [("access_token", .str "tok"), ("expires_in", .num 1000),
             ("obtained_at", .num 50)], none, none, 100⟩ =
    ⟨some (some (.str "tok")), []⟩ :=
  (token_validity_window
    ⟨some [("access_token", .str "tok"), ("expires_in", .num 1000),
           ("obtained_at", .num 50)], none, none, 100⟩
    [("access_token", .str "tok"), ("expires_in", .num 1000),
     ("obtained_at", .num 50)]
    1000 50 rfl rfl rfl rfl rfl (by decide) (by decide)).1 (by decide)

/-- C2, counterexample to the claim as stated: a record with all three
fields present (`obtained_at = 0`) at a time strictly inside the claimed
validity window (100 < 0 + 1000 - 300) is nonetheless treated as invalid —
`obtained_at` being zero is handled as missing — so the call enters the
refresh branch and returns no token instead of the cached one. -/
theorem token_zero_obtained_at_cex :
  ((100 : Int) < 0 + 1000 - 300) ∧
  get_valid_access_token
      ⟨some [("access_token", .str "tok"), ("expires_in", .num 1000),
             ("obtained_at", .num 0)], none, none, 100⟩ =
    ⟨some none, [.refreshAttempt]⟩ :=
  ⟨by decide, rfl⟩


/-- Appending a refresh-call-free prefix preserves a count bound on the
refresh calls. -/
theorem count_refresh_append (ev l : List AuthEvent)
    (h : ev.count AuthEvent.refreshCall = 0)
    (hl : l.count AuthEvent.refreshCall ≤ 1) :
    (ev ++ l).count AuthEvent.refreshCall ≤ 1 := by
  simp [List.count_append, h, hl]

/-- A trace of one refresh attempt and one refresh call followed by a
refresh-call-free tail counts exactly one refresh call. -/
theorem count_refresh_two (l : List AuthEvent)
    (h : l.count AuthEvent.refreshCall = 0) :
    (AuthEvent.refreshAttempt :: AuthEvent.refreshCall :: l).count
      AuthEvent.refreshCall = 1 := by
  simp +decide [List.count_cons, h]

/-- C9: within one `get_valid_access_token` run the refresh network call
happens at most once; if the token endpoint rejects the refresh
(`refreshResponse = none`) and a refresh call was made, the run returns no
token (and, by the count bound, never retries); and if the refresh branch
was entered but no refresh call could be made (no truthy refresh token),
the run also returns no token. -/
theorem refresh_at_most_once (env : AuthEnv) :
  ((get_valid_access_token env).events.count .refreshCall ≤ 1) ∧
  (env.refreshResponse = none →
    AuthEvent.refreshCall ∈ (get_valid_access_token env).events →
    (get_valid_access_token env).result = some none) ∧
  (AuthEvent.refreshAttempt ∈ (get_valid_access_token env).events →
    AuthEvent.refreshCall ∉ (get_valid_access_token env).events →
    (get_valid_access_token env).result = some none) := by
  have hacq2 : (acquire_token_data env).2 = [] ∨
      (acquire_token_data env).2 = [AuthEvent.interactiveAuth] ∨
      (acquire_token_data env).2 = [AuthEvent.interactiveAuth, AuthEvent.saveTokens] := by
    unfold acquire_token_data
    rcases env.stored with _ | td
    · rcases env.interactive with _ | td2
      · simp
      · by_cases h : td2.isEmpty <;> simp [h]
    · by_cases h : td.isEmpty
      · rcases env.interactive with _ | td2
        · simp [h]
        · by_cases h2 : td2.isEmpty <;> simp [h, h2]
      · simp [h]
  rcases ha : acquire_token_data env with ⟨td?, ev⟩
  rw [ha] at hacq2
  have hacq3 : ev = [] ∨ ev = [AuthEvent.interactiveAuth] ∨
      ev = [AuthEvent.interactiveAuth, AuthEvent.saveTokens] := hacq2
  have hc0 : ev.count AuthEvent.refreshCall = 0 := by
    rcases hacq3 with h | h | h <;> subst h <;> rfl
  have hcmem : AuthEvent.refreshCall ∉ ev := by
    rcases hacq3 with h | h | h <;> subst h <;> simp
  have hamem : AuthEvent.refreshAttempt ∉ ev := by
    rcases hacq3 with h | h | h <;> subst h <;> simp
  rcases td? with _ | td
  · have hout : get_valid_access_token env = ⟨some none, ev⟩ := by
      simp [get_valid_access_token, ha]
    rw [hout]
    exact ⟨by simp [hc0], fun _ hm => absurd hm hcmem, fun hm _ => absurd hm hamem⟩
  · cases hv : is_token_valid td env.now with
    | none =>
      have hout : get_valid_access_token env = ⟨none, ev⟩ := by
        simp [get_valid_access_token, ha, hv]
      rw [hout]
      exact ⟨by simp [hc0], fun _ hm => absurd hm hcmem, fun hm _ => absurd hm hamem⟩
    | some b =>
      cases b with
      | true =>
        have hout : get_valid_access_token env =
            ⟨some (td.lookup "access_token"), ev⟩ := by
          simp [get_valid_access_token, ha, hv]
        rw [hout]
        exact ⟨by simp [hc0], fun _ hm => absurd hm hcmem, fun hm _ => absurd hm hamem⟩
      | false =>
        cases hrt : td.lookup "refresh_token" with
        | none =>
          have hout : get_valid_access_token env =
              ⟨some none, ev ++ [.refreshAttempt]⟩ := by
            simp [get_valid_access_token, ha, hv, hrt]
          rw [hout]
          refine ⟨count_refresh_append ev _ hc0 (by decide), ?_, fun _ _ => rfl⟩
          intro _ hm
          rcases List.mem_append.mp hm with hm | hm
          · exact absurd hm hcmem
          · simp at hm
        | some rt =>
          cases hrtt : rt.truthy with
          | false =>
            have hout : get_valid_access_token env =
                ⟨some none, ev ++ [.refreshAttempt]⟩ := by
              simp [get_valid_access_token, ha, hv, hrt, hrtt]
            rw [hout]
            refine ⟨count_refresh_append ev _ hc0 (by decide), ?_, fun _ _ => rfl⟩
            intro _ hm
            rcases List.mem_append.mp hm with hm | hm
            · exact absurd hm hcmem
            · simp at hm
          | true =>
            cases hrr : env.refreshResponse with
            | none =>
              have hout : get_valid_access_token env =
                  ⟨some none, (ev ++ [.refreshAttempt]) ++ [.refreshCall]⟩ := by
                simp [get_valid_access_token, ha, hv, hrt, hrtt,
                  refresh_access_token, hrr]
              rw [hout]
              refine ⟨?_, fun _ _ => rfl, ?_⟩
              · rw [List.append_assoc]
                exact count_refresh_append ev _ hc0 (by decide)
              · intro _ hm
                exact absurd (List.mem_append.mpr (Or.inr (by simp))) hm
            | some rtd =>
              have hsave : (if (rtd.lookup "refresh_token").isSome = true
                  then [AuthEvent.saveTokens] else []).count AuthEvent.refreshCall
                    = 0 := by
                cases (rtd.lookup "refresh_token").isSome <;> rfl
              cases hat : rtd.lookup "access_token" with
              | none =>
                have hout : get_valid_access_token env =
                    ⟨some none, (ev ++ [.refreshAttempt]) ++
                      ([.refreshCall] ++ (if (rtd.lookup "refresh_token").isSome
                        then [AuthEvent.saveTokens] else []))⟩ := by
                  simp [get_valid_access_token, ha, hv, hrt, hrtt,
                    refresh_access_token, hrr, hat]
                rw [hout]
                refine ⟨?_, fun _ _ => rfl, ?_⟩
                · rw [List.append_assoc]
                  refine count_refresh_append ev _ hc0 ?_
                  exact le_of_eq (count_refresh_two _ hsave)
                · intro _ hm
                  exact absurd (List.mem_append.mpr (Or.inr (by simp))) hm
              | some t =>
                cases htt : t.truthy with
                | false =>
                  have hout : get_valid_access_token env =
                      ⟨some none, (ev ++ [.refreshAttempt]) ++
                        ([.refreshCall] ++ (if (rtd.lookup "refresh_token").isSome
                          then [AuthEvent.saveTokens] else []))⟩ := by
                    simp [get_valid_access_token, ha, hv, hrt, hrtt,
                      refresh_access_token, hrr, hat, htt]
                  rw [hout]
                  refine ⟨?_, fun _ _ => rfl, ?_⟩
                  · rw [List.append_assoc]
                    refine count_refresh_append ev _ hc0 ?_
                    exact le_of_eq (count_refresh_two _ hsave)
                  · intro _ hm
                    exact absurd (List.mem_append.mpr (Or.inr (by simp))) hm
                | true =>
                  have hX : ((if (rtd.lookup "refresh_token").isSome = true
                      then [AuthEvent.saveTokens] else []) ++
                        [AuthEvent.saveTokens]).count AuthEvent.refreshCall = 0 := by
                    rw [List.count_append, hsave]
                    rfl
                  have hout : get_valid_access_token env =
                      ⟨some (some t), ((ev ++ [.refreshAttempt]) ++
                        ([.refreshCall] ++ (if (rtd.lookup "refresh_token").isSome
                          then [AuthEvent.saveTokens] else []))) ++
                        [.saveTokens]⟩ := by
                    simp [get_valid_access_token, ha, hv, hrt, hrtt,
                      refresh_access_token, hrr, hat, htt]
                  rw [hout]
                  refine ⟨?_, fun hc _ => absurd hc (by simp), ?_⟩
                  · rw [List.append_assoc, List.append_assoc]
                    refine count_refresh_append ev _ hc0 ?_
                    exact le_of_eq (count_refresh_two _ hX)
                  · intro _ hm
                    refine absurd (List.mem_append.mpr (Or.inl ?_)) hm
                    exact List.mem_append.mpr (Or.inr (by simp))

/-- Whether a field of a token record is safe for the expiration
arithmetic: its value, when present and truthy, is a number (falsy values
are screened out before the arithmetic runs). -/
def fieldNumericOk (td : PyDict) (k : String) : Bool :=
  match td.lookup k with
  | some (.num _) => true
  | some v => !v.truthy
  | none => true

/-- The claim's reading of token validity: all three fields present,
`expires_in` and `obtained_at` non-zero numbers, and the current time
strictly below `obtained_at + expires_in - 300`. -/
def token_valid_spec (td : PyDict) (now : Int) : Bool :=
  !td.isEmpty && (td.lookup "access_token").isSome &&
  (match td.lookup "expires_in", td.lookup "obtained_at" with
   | some (.num e), some (.num o) =>
     !(e == 0) && !(o == 0) && decide (now < o + e - 300)
   | _, _ => false)

/-- C10 (amended): on every dictionary whose truthy `expires_in` and
`obtained_at` values are numbers, `is_token_valid` returns a boolean
without raising, and that boolean is exactly the claim's condition: false
whenever the record is empty, lacks `access_token`, or has `expires_in` or
`obtained_at` absent, `None`, falsy or zero; true exactly when all three
fields are present with non-zero numeric lifetimes and the current time is
strictly below `obtained_at + expires_in - 300`. -/
theorem token_check_total_on_numeric (td : PyDict) (now : Int)
    (h1 : fieldNumericOk td "expires_in" = true)
    (h2 : fieldNumericOk td "obtained_at" = true) :
    is_token_valid td now = some (token_valid_spec td now) := by
  unfold is_token_valid token_valid_spec
  cases hemp : td.isEmpty
  · cases hacc : td.lookup "access_token" with
    | none => simp
    | some a =>
      simp only [Option.isNone_none, Option.isSome_some, Bool.not_true,
        Bool.true_and, Option.isNone_some]
      cases he : td.lookup "expires_in" with
      | none => simp [truthyOpt]
      | some ve =>
        cases ho : td.lookup "obtained_at" with
        | none => simp [truthyOpt]
        | some vo =>
          rw [fieldNumericOk, he] at h1
          rw [fieldNumericOk, ho] at h2
          cases ve with
          | num e =>
            cases vo with
            | num o =>
              by_cases he0 : e = 0
              · subst he0
                simp [truthyOpt, PyVal.truthy]
              · by_cases ho0 : o = 0
                · subst ho0
                  simp [truthyOpt, PyVal.truthy, he0]
                · simp [truthyOpt, PyVal.truthy, he0, ho0, pyAdd,
                    PyVal.asNum?, pySubInt, pyLtInt]
            | null => simp [truthyOpt, PyVal.truthy]
            | bool b =>
              cases b
              · simp [truthyOpt, PyVal.truthy]
              · simp [PyVal.truthy] at h2
            | str s =>
              cases hs : s.isEmpty
              · simp [PyVal.truthy, hs] at h2
              · simp [truthyOpt, PyVal.truthy, hs]
            | arr xs =>
              cases hs : xs.isEmpty
              · simp [PyVal.truthy, hs] at h2
              · simp [truthyOpt, PyVal.truthy, hs]
            | obj fs =>
              cases hs : fs.isEmpty
              · simp [PyVal.truthy, hs] at h2
              · simp [truthyOpt, PyVal.truthy, hs]
          | null => simp [truthyOpt, PyVal.truthy]
          | bool b =>
            cases b
            · simp [truthyOpt, PyVal.truthy]
            · simp [PyVal.truthy] at h1
          | str s =>
            cases hs : s.isEmpty
            · simp [PyVal.truthy, hs] at h1
            · simp [truthyOpt, PyVal.truthy, hs]
          | arr xs =>
            cases hs : xs.isEmpty
            · simp [PyVal.truthy, hs] at h1
            · simp [truthyOpt, PyVal.truthy, hs]
          | obj fs =>
            cases hs : fs.isEmpty
            · simp [PyVal.truthy, hs] at h1
            · simp [truthyOpt, PyVal.truthy, hs]
  · simp [hemp]

/-- C10, witness: a well-typed record obtained at time 100 with a
7200-second lifetime, checked at time 500, evaluates without raising to
the claim's validity condition. -/
theorem token_check_total_on_numeric_witness :
  is_token_valid
      [("access_token", .str "x"), ("expires_in", .num 7200),
       ("obtained_at", .num 100)] 500 =
    some (token_valid_spec
      [("access_token", .str "x"), ("expires_in", .num 7200),
       ("obtained_at", .num 100)] 500) :=
  token_check_total_on_numeric
    [("access_token", .str "x"), ("expires_in", .num 7200),
     ("obtained_at", .num 100)] 500 rfl rfl

/-- C10, counterexample to the claim as stated: on a dictionary whose
`expires_in` is the truthy string `"3600"`, the source's expiration
arithmetic is `100 + "3600"`, which raises `TypeError` — `is_token_valid`
does not return a boolean on every input dictionary. -/
theorem token_check_raises_on_string_cex :
  is_token_valid
      [("access_token", .str "x"), ("expires_in", .str "3600"),
       ("obtained_at", .num 100)] 0 = none :=
  rfl
